import Mathlib

/-!
Verification of the token-recognition driver `Lexer.js`
(runtime/JavaScript/src/antlr4/Lexer.js) against its specification.

The driver is shallowly embedded: the `Lexer` structure holds the same
fields as the JavaScript class, and `nextToken` is the same outer/inner
loop, written with explicit fuel (the loops are driven by a finite script
of interpreter match outcomes, so fuel bounded by the script length is
always sufficient).  External collaborators (character stream, interpreter,
token factory, error-listener dispatch) are modelled from the spec at their
interface boundary, as the spec directs.
-/

namespace Antlr4Lexer

/-- Modelled from the spec: `Token.EOF`, the end-of-input sentinel value
(`Token.js` is not part of the sources; §6 requires an end-of-input
sentinel distinct from every real token type). -/
def Token.EOF : Int := -1

/-- Modelled from the spec: `Token.INVALID_TYPE`, the "invalid/unset"
sentinel for the in-progress token type (§3). -/
def Token.INVALID_TYPE : Int := 0

/-- Modelled from the spec: `Token.DEFAULT_CHANNEL`, the default channel
identifier (§3). -/
def Token.DEFAULT_CHANNEL : Int := 0

/-- `Lexer.DEFAULT_MODE = 0` (source line 360). -/
def Lexer.DEFAULT_MODE : Int := 0

/-- `Lexer.MORE = -2` (source line 361). -/
def Lexer.MORE : Int := -2

/-- `Lexer.SKIP = -3` (source line 362). -/
def Lexer.SKIP : Int := -3

/-- Modelled from the spec: the immutable token object produced by the
token factory (§3): {type, text, channel, startIndex, stopIndex, line,
column}.  The source pair is kept on the driver
(`_tokenFactorySourcePair`), not repeated here. -/
structure Token where
  type : Int
  text : Option String
  channel : Int
  start : Int
  stop : Int
  line : Int
  column : Int
deriving Repr, DecidableEq

/-- Modelled from the spec: the character stream collaborator (§6):
`index`, `LA(1)`, `seek`, `mark`/`release`, `consume`, `getText`.  A
finite list of characters with a cursor; `markCount` counts outstanding
markers so that the release-on-all-paths obligation is observable. -/
structure Stream where
  chars : List Char
  pos : Nat
  markCount : Int
deriving Repr, DecidableEq

/-- `index`: the current position of the stream. -/
def Stream.index (s : Stream) : Nat := s.pos

/-- `LA(1)`: one character of lookahead, or the end-of-input sentinel. -/
def Stream.LA1 (s : Stream) : Int :=
  match s.chars.drop s.pos with
  | [] => Token.EOF
  | c :: _ => (c.toNat : Int)

/-- `consume()`: advance the stream one character. -/
def Stream.consume (s : Stream) : Stream := { s with pos := s.pos + 1 }

/-- `seek(pos)`. -/
def Stream.seek (s : Stream) (i : Nat) : Stream := { s with pos := i }

/-- `mark()`: pin the current position; one more outstanding marker. -/
def Stream.mark (s : Stream) : Stream := { s with markCount := s.markCount + 1 }

/-- `release(marker)`: one fewer outstanding marker. -/
def Stream.release (s : Stream) : Stream := { s with markCount := s.markCount - 1 }

/-- `getText(start, stop)`: the characters from `start` to `stop`
inclusive. -/
def Stream.getText (s : Stream) (a b : Int) : String :=
  String.mk (((s.chars.drop a.toNat)).take (b - a + 1).toNat)

/-- The lexer rule actions a single interpreter `match` call may perform
on the driver (custom actions run inside the match): `setType` (which also
covers `skip()` and `more()`), `setChannel`, `setText`, and a custom
`emitToken`.  `none` means the action was not performed. -/
structure LexActs where
  aType : Option Int
  aChannel : Option Int
  aText : Option String
  aToken : Option Token
deriving Repr, DecidableEq

/-- No rule action at all. -/
def noActs : LexActs := ⟨none, none, none, none⟩

/-- The three outcomes of one interpreter `match` call (§6): a resolved
token type (together with the rule actions that ran), a typed recognition
failure (with the "no viable alternative" variant distinguished), or a
non-recognition failure carrying an opaque payload. -/
inductive MatchOutcome where
  | resolved (ttype : Int) (acts : LexActs)
  | recFailure (noViable : Bool)
  | otherFailure (code : Nat)
deriving Repr, DecidableEq

/-- Modelled from the spec: one scripted interpreter `match` call.  The
call consumes `consumed` characters from the stream, leaves the
interpreter's line/column at `line`/`column`, and then yields `outcome`. -/
structure MatchStep where
  consumed : Nat
  line : Int
  column : Int
  outcome : MatchOutcome
deriving Repr, DecidableEq

/-- Modelled from the spec: the pattern-matching interpreter collaborator
(§6), with mutable `line`/`column`, and `match` behavior given by a finite
script of `MatchStep`s consumed head-first. -/
structure Interp where
  line : Int
  column : Int
  script : List MatchStep
deriving Repr, DecidableEq

/-- Modelled from the spec: `interp.reset()` resets the interpreter's
internal position tracking (§4.1) to line 1, column 0. -/
def Interp.reset (ip : Interp) : Interp := { ip with line := 1, column := 0 }

/-- Modelled from the spec: `interp.consume(stream)` advances one
character with line/column tracking, including newline handling (§4.1
recovery policy). -/
def interpConsume (ip : Interp) (s : Stream) : Interp × Stream :=
  let ip1 := if s.LA1 = (10 : Int) then { ip with line := ip.line + 1, column := 0 }
             else { ip with column := ip.column + 1 }
  (ip1, s.consume)

/-- One notification delivered to the error-listener dispatch (§6):
`(recognizer, offendingSymbol = null, line, column, message, detail)`.
The recognizer argument is the driver itself and is not repeated; the
failure detail is represented by its no-viable-alternative flag. -/
structure LexErrorEvent where
  offendingSymbol : Option Token
  line : Int
  column : Int
  msg : String
  detailNoViable : Bool
deriving Repr, DecidableEq

/-- `getErrorDisplay(s)` (source lines 260-266): pushes every character of
`s` into an array and joins with the empty separator. -/
def getErrorDisplay (s : String) : String :=
  String.join (s.data.map (fun c => Char.toString c))

/-- An apostrophe, as used by the recognition-error message format. -/
def squote : String := String.mk [Char.ofNat 39]

/-- The driver state: the fields of the `Lexer` class (source lines
18-68), plus `errors`, the log of notifications delivered to the
error-listener dispatch (an external sink). -/
structure Lexer where
  _input : Option Stream
  _tokenFactorySourcePair : Option Stream
  _interp : Interp
  _token : Option Token
  _tokenStartCharIndex : Int
  _tokenStartLine : Int
  _tokenStartColumn : Int
  _hitEOF : Bool
  _channel : Int
  _type : Int
  _modeStack : List Int
  _mode : Int
  _text : Option String
  errors : List LexErrorEvent
deriving Repr, DecidableEq

/-- The constructor (source lines 18-68): a freshly constructed lexer on a
given input stream. -/
def mkLexer (input : Stream) (script : List MatchStep) : Lexer :=
  { _input := some input
    _tokenFactorySourcePair := some input
    _interp := ⟨1, 0, script⟩
    _token := none
    _tokenStartCharIndex := -1
    _tokenStartLine := -1
    _tokenStartColumn := -1
    _hitEOF := false
    _channel := Token.DEFAULT_CHANNEL
    _type := Token.INVALID_TYPE
    _modeStack := []
    _mode := Lexer.DEFAULT_MODE
    _text := none
    errors := [] }

/-- Modelled from the spec: the token factory collaborator (§6):
`create(sourcePair, type, text|null, channel, start, stop, line, column)
-> Token`. -/
def factoryCreate (_sourcePair : Option Stream) (t : Int) (txt : Option String)
    (ch : Int) (start stop line column : Int) : Token :=
  ⟨t, txt, ch, start, stop, line, column⟩

/-- `emitToken(token)` (source lines 201-203). -/
def Lexer.emitToken (lx : Lexer) (t : Token) : Lexer := { lx with _token := some t }

/-- `emit()` (source lines 212-219): the default emission.  `s` is the
driver's current `_input` (threaded explicitly). -/
def Lexer.emit (lx : Lexer) (s : Stream) : Token × Lexer :=
  let t := factoryCreate lx._tokenFactorySourcePair lx._type lx._text lx._channel
      lx._tokenStartCharIndex ((s.index : Int) - 1) lx._tokenStartLine
      lx._tokenStartColumn
  (t, lx.emitToken t)

/-- `emitEOF()` (source lines 221-229). -/
def Lexer.emitEOF (lx : Lexer) (s : Stream) : Token × Lexer :=
  let t := factoryCreate lx._tokenFactorySourcePair Token.EOF none
      Token.DEFAULT_CHANNEL (s.index : Int) ((s.index : Int) - 1)
      lx._interp.line lx._interp.column
  (t, lx.emitToken t)

/-- `notifyListeners(e)` (source lines 250-258): append one notification
to the error-listener sink. -/
def Lexer.notifyListeners (lx : Lexer) (s : Stream) (nv : Bool) : Lexer :=
  let start := lx._tokenStartCharIndex
  let stop : Int := (s.index : Int)
  let text := s.getText start stop
  let msg := "token recognition error at: " ++ squote ++ getErrorDisplay text ++ squote
  { lx with errors := lx.errors ++
      [⟨none, lx._tokenStartLine, lx._tokenStartColumn, msg, nv⟩] }

/-- `recover(re)` (source lines 292-302): if the next character is not
end-of-input, consume one character — through the interpreter when the
failure is a no-viable-alternative, directly from the stream otherwise. -/
def Lexer.recover (lx : Lexer) (nv : Bool) (s : Stream) : Lexer × Stream :=
  if s.LA1 ≠ Token.EOF then
    if nv then
      let r := interpConsume lx._interp s
      ({ lx with _interp := r.1 }, r.2)
    else
      (lx, s.consume)
  else
    (lx, s)

/-- Applying the rule actions of one `match` call to the driver. -/
def Lexer.applyActs (lx : Lexer) (a : LexActs) : Lexer :=
  let lx := match a.aType with | some t => { lx with _type := t } | none => lx
  let lx := match a.aChannel with | some c => { lx with _channel := c } | none => lx
  let lx := match a.aText with | some t => { lx with _text := some t } | none => lx
  match a.aToken with | some t => lx.emitToken t | none => lx

/-- The result of the inner resolution loop: a concrete type was resolved
(break at line 139), the skip sentinel requested an outer retry (lines
134-137), a non-recognition failure is propagating (line 125), or the
model's fuel ran out. -/
inductive InnerRes where
  | resolved
  | continueOuter
  | thrown (code : Nat)
  | fuel
deriving Repr, DecidableEq

/-- Source lines 128-140: the code after the try/catch in the inner loop —
the end-of-input latch, adoption of the interpreter's resolved type, and
the skip/more decision.  Returns `some r` when the inner loop breaks with
result `r` and `none` when it loops again (`_type = MORE`).  The stream is
not touched here. -/
def Lexer.innerPost (lx : Lexer) (s : Stream) (ttype : Int) : Option InnerRes × Lexer :=
  let lx1 := if s.LA1 = Token.EOF then { lx with _hitEOF := true } else lx
  let lx2 := if lx1._type = Token.INVALID_TYPE then { lx1 with _type := ttype } else lx1
  if lx2._type = Lexer.SKIP then (some .continueOuter, lx2)
  else if lx2._type = Lexer.MORE then (none, lx2)
  else (some .resolved, lx2)

/-- Whether the inner loop breaks with a result (`some`, turned into
`Sum.inl`) or iterates again (`none`, the more sentinel, turned into
`Sum.inr`). -/
def brk : Option InnerRes → InnerRes ⊕ Unit
  | some r => .inl r
  | none => .inr ()

/-- The driver state right after one scripted interpreter `match` call
inside the inner loop: `_type` was cleared at the top of the iteration
(source line 115) and the interpreter moved to the step's line/column with
the head of the script consumed. -/
def Lexer.afterMatch (lx : Lexer) (step : MatchStep) (rest : List MatchStep) : Lexer :=
  { lx with
    _type := Token.INVALID_TYPE
    _interp := ⟨step.line, step.column, rest⟩ }

/-- One iteration of the inner resolution loop of `nextToken` (source
lines 114-141): clear `_type`, perform one interpreter `match` call
(consuming the head of the script), handle a recognition failure by
notification and recovery with the returned type treated as the skip
sentinel, then run `innerPost`.  `Sum.inl r` breaks the loop with result
`r`; `Sum.inr ()` loops again (the more sentinel). -/
def Lexer.innerStep (lx : Lexer) (s : Stream) : (InnerRes ⊕ Unit) × Lexer × Stream :=
  let lx0 := { lx with _type := Token.INVALID_TYPE }
  match lx._interp.script with
  | [] => (.inl .fuel, lx0, s)
  | step :: rest =>
    let ip1 : Interp := ⟨step.line, step.column, rest⟩
    let s1 : Stream := { s with pos := s.pos + step.consumed }
    let lxm := { lx0 with _interp := ip1 }
    match step.outcome with
    | .otherFailure c => (.inl (.thrown c), lxm, s1)
    | .recFailure nv =>
      let lxe := lxm.notifyListeners s1 nv
      let r := lxe.recover nv s1
      let p := r.1.innerPost r.2 Lexer.SKIP
      (brk p.1, p.2, r.2)
    | .resolved t acts =>
      let lxa := lxm.applyActs acts
      let p := lxa.innerPost s1 t
      (brk p.1, p.2, s1)

/-- The inner resolution loop of `nextToken` (source lines 114-141):
iterate `innerStep` until it breaks. -/
def Lexer.innerLoop : Nat → Lexer → Stream → InnerRes × Lexer × Stream
  | 0, lx, s => (.fuel, lx, s)
  | fuel + 1, lx, s =>
    match Lexer.innerStep lx s with
    | (.inl r, lx1, s1) => (r, lx1, s1)
    | (.inr _, lx1, s1) => Lexer.innerLoop fuel lx1 s1

/-- Source lines 107-112: the start of one outer iteration — clear the
current token, reset the channel, capture the token start position from
the current stream index and the interpreter's line/column, clear the text
override. -/
def Lexer.beginToken (lx : Lexer) (s : Stream) : Lexer :=
  { lx with _token := none
            _channel := Token.DEFAULT_CHANNEL
            _tokenStartCharIndex := (s.index : Int)
            _tokenStartColumn := lx._interp.column
            _tokenStartLine := lx._interp.line
            _text := none }

/-- The observable result of one `nextToken` call. -/
inductive NTOut where
  | ok (t : Token)
  | err (code : Nat)
  | noStream
  | outOfFuel
deriving Repr, DecidableEq

/-- The outer loop of `nextToken` (source lines 102-149): emit EOF when
the latch is set; otherwise begin a token, run the inner loop, retry on
skip, propagate non-recognition failures, and otherwise perform the
default emission when no custom action emitted. -/
def Lexer.outerLoop : Nat → Lexer → Stream → NTOut × Lexer × Stream
  | 0, lx, s => (.outOfFuel, lx, s)
  | fuel + 1, lx, s =>
    if lx._hitEOF then
      let r := lx.emitEOF s
      (.ok r.1, r.2, s)
    else
      let lx1 := lx.beginToken s
      match Lexer.innerLoop (lx1._interp.script.length + 1) lx1 s with
      | (.continueOuter, lx2, s2) => Lexer.outerLoop fuel lx2 s2
      | (.resolved, lx2, s2) =>
        match lx2._token with
        | none =>
          let r := lx2.emit s2
          (.ok r.1, r.2, s2)
        | some t => (.ok t, lx2, s2)
      | (.thrown c, lx2, s2) => (.err c, lx2, s2)
      | (.fuel, lx2, s2) => (.outOfFuel, lx2, s2)

/-- `nextToken()` (source lines 91-155): fail on a missing input stream,
acquire a stream marker, run the outer loop, and release the marker on
every exit path (the `finally`). -/
def Lexer.nextToken (lx : Lexer) : NTOut × Lexer :=
  match lx._input with
  | none => (.noStream, lx)
  | some s =>
    let r := Lexer.outerLoop (lx._interp.script.length + 1) lx s.mark
    (r.1, { r.2.1 with _input := some r.2.2.release })

/-- `skip()` (source lines 164-166). -/
def Lexer.skip (lx : Lexer) : Lexer := { lx with _type := Lexer.SKIP }

/-- `more()` (source lines 168-170). -/
def Lexer.more (lx : Lexer) : Lexer := { lx with _type := Lexer.MORE }

/-- `mode(m)` (source lines 172-174). -/
def Lexer.mode (lx : Lexer) (m : Int) : Lexer := { lx with _mode := m }

/-- `pushMode(m)` (source lines 176-182): push the current mode, then set
the current mode to `m`. -/
def Lexer.pushMode (lx : Lexer) (m : Int) : Lexer :=
  ({ lx with _modeStack := lx._modeStack ++ [lx._mode] }).mode m

/-- `popMode()` (source lines 184-193): fatal on an empty mode stack;
otherwise pop the top value, make it the current mode, and return the new
current mode. -/
def Lexer.popMode (lx : Lexer) : Except String (Int × Lexer) :=
  match lx._modeStack.getLast? with
  | none => .error "Empty Stack"
  | some m =>
    let lx1 := ({ lx with _modeStack := lx._modeStack.dropLast }).mode m
    .ok (lx1._mode, lx1)

/-- `reset()` (source lines 70-88): rewind the input if attached, clear
all scan state, the mode stack and the EOF latch, reset the interpreter. -/
def Lexer.reset (lx : Lexer) : Lexer :=
  let lx := match lx._input with
    | some s => { lx with _input := some (s.seek 0) }
    | none => lx
  { lx with _token := none
            _type := Token.INVALID_TYPE
            _channel := Token.DEFAULT_CHANNEL
            _tokenStartCharIndex := -1
            _tokenStartColumn := -1
            _tokenStartLine := -1
            _text := none
            _hitEOF := false
            _mode := Lexer.DEFAULT_MODE
            _modeStack := []
            _interp := lx._interp.reset }

/-- `set inputStream(input)` (source lines 308-314): null the input,
re-point the factory source pair, run `reset()` (whose `seek(0)` is
skipped because the input is null at that moment), then attach the new
stream and re-point the source pair at it. -/
def Lexer.setInputStream (lx : Lexer) (input : Stream) : Lexer :=
  let lx1 := { lx with _input := none }
  let lx2 := { lx1 with _tokenFactorySourcePair := lx1._input }
  let lx3 := lx2.reset
  let lx4 := { lx3 with _input := some input }
  { lx4 with _tokenFactorySourcePair := lx4._input }

/-- The possible non-token outcomes of `getAllTokens`. -/
inductive GAErr where
  | errored (code : Nat)
  | noStream
  | fuelOut
deriving Repr, DecidableEq

/-- The loop of `getAllTokens` (source lines 240-248), with fuel: collect
tokens until one with the end-of-input type arrives; that token is not
collected. -/
def Lexer.gaLoop : Nat → Lexer → Except GAErr (List Token × Lexer)
  | 0, _ => .error .fuelOut
  | fuel + 1, lx =>
    match lx.nextToken with
    | (.ok t, lx1) =>
      if t.type = Token.EOF then .ok ([], lx1)
      else
        match Lexer.gaLoop fuel lx1 with
        | .ok (ts, lx2) => .ok (t :: ts, lx2)
        | .error e => .error e
    | (.err c, _) => .error (.errored c)
    | (.noStream, _) => .error .noStream
    | (.outOfFuel, _) => .error .fuelOut

/-- `getAllTokens()` (source lines 240-248). -/
def Lexer.getAllTokens (lx : Lexer) : Except GAErr (List Token × Lexer) :=
  Lexer.gaLoop (lx._interp.script.length + 1) lx

/-- A two-character stream already positioned at its end, used by concrete
witnesses. -/
def wStreamEnd : Stream := ⟨[Char.ofNat 97, Char.ofNat 98], 2, 0⟩

/-- A driver whose EOF latch is set, used by concrete witnesses. -/
def wLexEOF : Lexer := { mkLexer wStreamEnd [] with _hitEOF := true }

/-- The two-character stream "ab" at position zero, used by concrete
witnesses. -/
def wStream0 : Stream := ⟨[Char.ofNat 97, Char.ofNat 98], 0, 0⟩

/-- A scripted match that consumes both characters and resolves type 5. -/
def wStep5 : MatchStep := ⟨2, 1, 2, .resolved 5 noActs⟩

/-- A fresh driver over "ab" with the single `wStep5` match scripted. -/
def wLex1 : Lexer := mkLexer wStream0 [wStep5]

/-- The state of `wLex1` when its inner loop resolves (computed). -/
def wLex2 : Lexer :=
  { _input := some wStream0
    _tokenFactorySourcePair := some wStream0
    _interp := ⟨1, 2, []⟩
    _token := none
    _tokenStartCharIndex := 0
    _tokenStartLine := 1
    _tokenStartColumn := 0
    _hitEOF := true
    _channel := Token.DEFAULT_CHANNEL
    _type := 5
    _modeStack := []
    _mode := Lexer.DEFAULT_MODE
    _text := none
    errors := [] }

/-- The stream "ab" after both characters were consumed. -/
def wStream2 : Stream := ⟨[Char.ofNat 97, Char.ofNat 98], 2, 0⟩

/-- A scripted match that consumes one character and resolves the skip
sentinel. -/
def wSkipStep : MatchStep := ⟨1, 1, 1, .resolved Lexer.SKIP noActs⟩

/-- A scripted match that consumes one character and resolves type 6. -/
def wResStep : MatchStep := ⟨1, 1, 2, .resolved 6 noActs⟩

/-- A fresh driver over "ab" scripted to skip one character and then
resolve a token. -/
def wLexC2 : Lexer := mkLexer wStream0 [wSkipStep, wResStep]

/-- The state of `wLexC2` after its skip round (computed). -/
def wLexC2a : Lexer :=
  { _input := some wStream0
    _tokenFactorySourcePair := some wStream0
    _interp := ⟨1, 1, [wResStep]⟩
    _token := none
    _tokenStartCharIndex := 0
    _tokenStartLine := 1
    _tokenStartColumn := 0
    _hitEOF := false
    _channel := Token.DEFAULT_CHANNEL
    _type := Lexer.SKIP
    _modeStack := []
    _mode := Lexer.DEFAULT_MODE
    _text := none
    errors := [] }

/-- The stream "ab" after the skipped character. -/
def wStreamC2a : Stream := ⟨[Char.ofNat 97, Char.ofNat 98], 1, 0⟩

/-- The state of `wLexC2a` when its inner loop resolves (computed). -/
def wLexC2b : Lexer :=
  { _input := some wStream0
    _tokenFactorySourcePair := some wStream0
    _interp := ⟨1, 2, []⟩
    _token := none
    _tokenStartCharIndex := 1
    _tokenStartLine := 1
    _tokenStartColumn := 1
    _hitEOF := true
    _channel := Token.DEFAULT_CHANNEL
    _type := 6
    _modeStack := []
    _mode := Lexer.DEFAULT_MODE
    _text := none
    errors := [] }

/-- A scripted match resolving the more sentinel after one character. -/
def wMore1 : MatchStep := ⟨1, 1, 1, .resolved Lexer.MORE noActs⟩

/-- A second scripted match resolving the more sentinel. -/
def wMore2 : MatchStep := ⟨1, 1, 2, .resolved Lexer.MORE noActs⟩

/-- A scripted match resolving type 7 after one more character. -/
def wRes7 : MatchStep := ⟨1, 1, 3, .resolved 7 noActs⟩

/-- The three-character stream "abc" at position zero. -/
def wStreamABC : Stream := ⟨[Char.ofNat 97, Char.ofNat 98, Char.ofNat 99], 0, 0⟩

/-- A fresh driver over "abc" scripted for two more rounds and then a
resolution. -/
def wLexC3 : Lexer := mkLexer wStreamABC [wMore1, wMore2, wRes7]

/-- A scripted match that consumes one character and then raises a
no-viable-alternative recognition failure. -/
def wFailStep : MatchStep := ⟨1, 1, 1, .recFailure true⟩

/-- A fresh driver over "ab" scripted for one recognition failure. -/
def wLexC5 : Lexer := mkLexer wStream0 [wFailStep]

/-- A scripted match that raises a non-recognition failure with payload
42. -/
def wOtherStep : MatchStep := ⟨1, 1, 1, .otherFailure 42⟩

/-- A fresh driver over "ab" scripted for a non-recognition failure. -/
def wLexC6 : Lexer := mkLexer wStream0 [wOtherStep]

/-- Repeated `nextToken` calls from a state produce exactly the listed
tokens followed by one token of the end-of-input type. -/
inductive NextTokenTrace : Lexer → List Token → Lexer → Prop where
  | eof (lx lx1 : Lexer) (t : Token) :
      lx.nextToken = (.ok t, lx1) → t.type = Token.EOF → NextTokenTrace lx [] lx1
  | step (lx lx1 lx2 : Lexer) (t : Token) (ts : List Token) :
      lx.nextToken = (.ok t, lx1) → t.type ≠ Token.EOF → NextTokenTrace lx1 ts lx2 →
      NextTokenTrace lx (t :: ts) lx2

/-- The single ordinary token `wLex1` produces over "ab" (computed). -/
def wC9tok : Token := ⟨5, none, Token.DEFAULT_CHANNEL, 0, 1, 1, 0⟩

/-- The state of `wLex1` after its tokens and the end-of-input token were
drained (computed). -/
def wC9lxF : Lexer :=
  { _input := some ⟨[Char.ofNat 97, Char.ofNat 98], 2, 0⟩
    _tokenFactorySourcePair := some wStream0
    _interp := ⟨1, 2, []⟩
    _token := some ⟨Token.EOF, none, Token.DEFAULT_CHANNEL, 2, 1, 1, 2⟩
    _tokenStartCharIndex := 0
    _tokenStartLine := 1
    _tokenStartColumn := 0
    _hitEOF := true
    _channel := Token.DEFAULT_CHANNEL
    _type := 5
    _modeStack := []
    _mode := Lexer.DEFAULT_MODE
    _text := none
    errors := [] }

section Theorems

/-! Projection lemmas for the auxiliary operations, used to carry
invariants through the loops. -/

@[simp] theorem consume_markCount (s : Stream) : s.consume.markCount = s.markCount := rfl

@[simp] theorem consume_chars (s : Stream) : s.consume.chars = s.chars := rfl

@[simp] theorem consume_pos (s : Stream) : s.consume.pos = s.pos + 1 := rfl

@[simp] theorem interpConsume_fst_script (ip : Interp) (s : Stream) :
    (interpConsume ip s).1.script = ip.script := by
  simp only [interpConsume]
  split <;> rfl

@[simp] theorem interpConsume_snd (ip : Interp) (s : Stream) :
    (interpConsume ip s).2 = s.consume := rfl

@[simp] theorem notifyListeners_tsci (lx : Lexer) (s : Stream) (nv : Bool) :
    (lx.notifyListeners s nv)._tokenStartCharIndex = lx._tokenStartCharIndex := rfl

@[simp] theorem notifyListeners_tsl (lx : Lexer) (s : Stream) (nv : Bool) :
    (lx.notifyListeners s nv)._tokenStartLine = lx._tokenStartLine := rfl

@[simp] theorem notifyListeners_tsc (lx : Lexer) (s : Stream) (nv : Bool) :
    (lx.notifyListeners s nv)._tokenStartColumn = lx._tokenStartColumn := rfl

@[simp] theorem notifyListeners_pair (lx : Lexer) (s : Stream) (nv : Bool) :
    (lx.notifyListeners s nv)._tokenFactorySourcePair = lx._tokenFactorySourcePair := rfl

@[simp] theorem notifyListeners_inp (lx : Lexer) (s : Stream) (nv : Bool) :
    (lx.notifyListeners s nv)._input = lx._input := rfl

@[simp] theorem notifyListeners_interp (lx : Lexer) (s : Stream) (nv : Bool) :
    (lx.notifyListeners s nv)._interp = lx._interp := rfl

@[simp] theorem notifyListeners_type (lx : Lexer) (s : Stream) (nv : Bool) :
    (lx.notifyListeners s nv)._type = lx._type := rfl

@[simp] theorem notifyListeners_token (lx : Lexer) (s : Stream) (nv : Bool) :
    (lx.notifyListeners s nv)._token = lx._token := rfl

@[simp] theorem notifyListeners_channel (lx : Lexer) (s : Stream) (nv : Bool) :
    (lx.notifyListeners s nv)._channel = lx._channel := rfl

@[simp] theorem notifyListeners_text (lx : Lexer) (s : Stream) (nv : Bool) :
    (lx.notifyListeners s nv)._text = lx._text := rfl

@[simp] theorem notifyListeners_hitEOF (lx : Lexer) (s : Stream) (nv : Bool) :
    (lx.notifyListeners s nv)._hitEOF = lx._hitEOF := rfl

/-- `notifyListeners` reports exactly one notification to the dispatch. -/
theorem notifyListeners_errors (lx : Lexer) (s : Stream) (nv : Bool) :
    (lx.notifyListeners s nv).errors = lx.errors ++
      [⟨none, lx._tokenStartLine, lx._tokenStartColumn,
        "token recognition error at: " ++ squote ++
          getErrorDisplay (s.getText lx._tokenStartCharIndex (s.index : Int)) ++ squote, nv⟩] := rfl

@[simp] theorem recover_fst_tsci (lx : Lexer) (nv : Bool) (s : Stream) :
    (lx.recover nv s).1._tokenStartCharIndex = lx._tokenStartCharIndex := by
  rw [Lexer.recover]; split <;> (try split) <;> rfl

@[simp] theorem recover_fst_tsl (lx : Lexer) (nv : Bool) (s : Stream) :
    (lx.recover nv s).1._tokenStartLine = lx._tokenStartLine := by
  rw [Lexer.recover]; split <;> (try split) <;> rfl

@[simp] theorem recover_fst_tsc (lx : Lexer) (nv : Bool) (s : Stream) :
    (lx.recover nv s).1._tokenStartColumn = lx._tokenStartColumn := by
  rw [Lexer.recover]; split <;> (try split) <;> rfl

@[simp] theorem recover_fst_pair (lx : Lexer) (nv : Bool) (s : Stream) :
    (lx.recover nv s).1._tokenFactorySourcePair = lx._tokenFactorySourcePair := by
  rw [Lexer.recover]; split <;> (try split) <;> rfl

@[simp] theorem recover_fst_inp (lx : Lexer) (nv : Bool) (s : Stream) :
    (lx.recover nv s).1._input = lx._input := by
  rw [Lexer.recover]; split <;> (try split) <;> rfl

@[simp] theorem recover_fst_type (lx : Lexer) (nv : Bool) (s : Stream) :
    (lx.recover nv s).1._type = lx._type := by
  rw [Lexer.recover]; split <;> (try split) <;> rfl

@[simp] theorem recover_fst_token (lx : Lexer) (nv : Bool) (s : Stream) :
    (lx.recover nv s).1._token = lx._token := by
  rw [Lexer.recover]; split <;> (try split) <;> rfl

@[simp] theorem recover_fst_channel (lx : Lexer) (nv : Bool) (s : Stream) :
    (lx.recover nv s).1._channel = lx._channel := by
  rw [Lexer.recover]; split <;> (try split) <;> rfl

@[simp] theorem recover_fst_text (lx : Lexer) (nv : Bool) (s : Stream) :
    (lx.recover nv s).1._text = lx._text := by
  rw [Lexer.recover]; split <;> (try split) <;> rfl

@[simp] theorem recover_fst_hitEOF (lx : Lexer) (nv : Bool) (s : Stream) :
    (lx.recover nv s).1._hitEOF = lx._hitEOF := by
  rw [Lexer.recover]; split <;> (try split) <;> rfl

@[simp] theorem recover_fst_errors (lx : Lexer) (nv : Bool) (s : Stream) :
    (lx.recover nv s).1.errors = lx.errors := by
  rw [Lexer.recover]; split <;> (try split) <;> rfl

@[simp] theorem recover_fst_script (lx : Lexer) (nv : Bool) (s : Stream) :
    (lx.recover nv s).1._interp.script = lx._interp.script := by
  rw [Lexer.recover]; split <;> (try split) <;> simp

@[simp] theorem recover_snd_markCount (lx : Lexer) (nv : Bool) (s : Stream) :
    (lx.recover nv s).2.markCount = s.markCount := by
  rw [Lexer.recover]; split <;> (try split) <;> simp

@[simp] theorem recover_snd_chars (lx : Lexer) (nv : Bool) (s : Stream) :
    (lx.recover nv s).2.chars = s.chars := by
  rw [Lexer.recover]; split <;> (try split) <;> simp

@[simp] theorem innerPost_snd_tsci (lx : Lexer) (s : Stream) (t : Int) :
    (lx.innerPost s t).2._tokenStartCharIndex = lx._tokenStartCharIndex := by
  simp only [Lexer.innerPost]; (repeat' split) <;> rfl

@[simp] theorem innerPost_snd_tsl (lx : Lexer) (s : Stream) (t : Int) :
    (lx.innerPost s t).2._tokenStartLine = lx._tokenStartLine := by
  simp only [Lexer.innerPost]; (repeat' split) <;> rfl

@[simp] theorem innerPost_snd_tsc (lx : Lexer) (s : Stream) (t : Int) :
    (lx.innerPost s t).2._tokenStartColumn = lx._tokenStartColumn := by
  simp only [Lexer.innerPost]; (repeat' split) <;> rfl

@[simp] theorem innerPost_snd_pair (lx : Lexer) (s : Stream) (t : Int) :
    (lx.innerPost s t).2._tokenFactorySourcePair = lx._tokenFactorySourcePair := by
  simp only [Lexer.innerPost]; (repeat' split) <;> rfl

@[simp] theorem innerPost_snd_inp (lx : Lexer) (s : Stream) (t : Int) :
    (lx.innerPost s t).2._input = lx._input := by
  simp only [Lexer.innerPost]; (repeat' split) <;> rfl

@[simp] theorem innerPost_snd_interp (lx : Lexer) (s : Stream) (t : Int) :
    (lx.innerPost s t).2._interp = lx._interp := by
  simp only [Lexer.innerPost]; (repeat' split) <;> rfl

@[simp] theorem innerPost_snd_token (lx : Lexer) (s : Stream) (t : Int) :
    (lx.innerPost s t).2._token = lx._token := by
  simp only [Lexer.innerPost]; (repeat' split) <;> rfl

@[simp] theorem innerPost_snd_channel (lx : Lexer) (s : Stream) (t : Int) :
    (lx.innerPost s t).2._channel = lx._channel := by
  simp only [Lexer.innerPost]; (repeat' split) <;> rfl

@[simp] theorem innerPost_snd_text (lx : Lexer) (s : Stream) (t : Int) :
    (lx.innerPost s t).2._text = lx._text := by
  simp only [Lexer.innerPost]; (repeat' split) <;> rfl

@[simp] theorem innerPost_snd_errors (lx : Lexer) (s : Stream) (t : Int) :
    (lx.innerPost s t).2.errors = lx.errors := by
  simp only [Lexer.innerPost]; (repeat' split) <;> rfl

@[simp] theorem applyActs_tsci (lx : Lexer) (a : LexActs) :
    (lx.applyActs a)._tokenStartCharIndex = lx._tokenStartCharIndex := by
  rcases a with ⟨aT, aC, aX, aK⟩
  cases aT <;> cases aC <;> cases aX <;> cases aK <;> rfl

@[simp] theorem applyActs_tsl (lx : Lexer) (a : LexActs) :
    (lx.applyActs a)._tokenStartLine = lx._tokenStartLine := by
  rcases a with ⟨aT, aC, aX, aK⟩
  cases aT <;> cases aC <;> cases aX <;> cases aK <;> rfl

@[simp] theorem applyActs_tsc (lx : Lexer) (a : LexActs) :
    (lx.applyActs a)._tokenStartColumn = lx._tokenStartColumn := by
  rcases a with ⟨aT, aC, aX, aK⟩
  cases aT <;> cases aC <;> cases aX <;> cases aK <;> rfl

@[simp] theorem applyActs_pair (lx : Lexer) (a : LexActs) :
    (lx.applyActs a)._tokenFactorySourcePair = lx._tokenFactorySourcePair := by
  rcases a with ⟨aT, aC, aX, aK⟩
  cases aT <;> cases aC <;> cases aX <;> cases aK <;> rfl

@[simp] theorem applyActs_inp (lx : Lexer) (a : LexActs) :
    (lx.applyActs a)._input = lx._input := by
  rcases a with ⟨aT, aC, aX, aK⟩
  cases aT <;> cases aC <;> cases aX <;> cases aK <;> rfl

@[simp] theorem applyActs_interp (lx : Lexer) (a : LexActs) :
    (lx.applyActs a)._interp = lx._interp := by
  rcases a with ⟨aT, aC, aX, aK⟩
  cases aT <;> cases aC <;> cases aX <;> cases aK <;> rfl

@[simp] theorem applyActs_hitEOF (lx : Lexer) (a : LexActs) :
    (lx.applyActs a)._hitEOF = lx._hitEOF := by
  rcases a with ⟨aT, aC, aX, aK⟩
  cases aT <;> cases aC <;> cases aX <;> cases aK <;> rfl

@[simp] theorem applyActs_errors (lx : Lexer) (a : LexActs) :
    (lx.applyActs a).errors = lx.errors := by
  rcases a with ⟨aT, aC, aX, aK⟩
  cases aT <;> cases aC <;> cases aX <;> cases aK <;> rfl

/-- One inner-loop iteration never touches the captured token start
fields, the factory source pair, the attached input reference, the
outstanding marker count, or the stream contents. -/
theorem innerStep_pres (lx : Lexer) (s : Stream) :
    (Lexer.innerStep lx s).2.1._tokenStartCharIndex = lx._tokenStartCharIndex ∧
    (Lexer.innerStep lx s).2.1._tokenStartLine = lx._tokenStartLine ∧
    (Lexer.innerStep lx s).2.1._tokenStartColumn = lx._tokenStartColumn ∧
    (Lexer.innerStep lx s).2.1._tokenFactorySourcePair = lx._tokenFactorySourcePair ∧
    (Lexer.innerStep lx s).2.1._input = lx._input ∧
    (Lexer.innerStep lx s).2.2.markCount = s.markCount ∧
    (Lexer.innerStep lx s).2.2.chars = s.chars := by
  rcases hs : lx._interp.script with _ | ⟨step, rest⟩
  · simp [Lexer.innerStep, hs]
  · rcases ho : step.outcome with ⟨t, acts⟩ | nv | c
    · simp [Lexer.innerStep, hs, ho]
    · simp [Lexer.innerStep, hs, ho]
    · simp [Lexer.innerStep, hs, ho]

/-- One inner-loop iteration on a nonempty script consumes exactly its
head: the resulting interpreter script is the tail. -/
theorem innerStep_script (lx : Lexer) (s : Stream) (step : MatchStep) (rest : List MatchStep)
    (hs : lx._interp.script = step :: rest) :
    (Lexer.innerStep lx s).2.1._interp.script = rest := by
  rcases ho : step.outcome with ⟨t, acts⟩ | nv | c
  · simp [Lexer.innerStep, hs, ho]
  · simp [Lexer.innerStep, hs, ho]
  · simp [Lexer.innerStep, hs, ho]

/-- On an empty script the inner iteration only reports fuel exhaustion
(the model's stand-in for interpreter behavior beyond the script). -/
theorem innerStep_empty (lx : Lexer) (s : Stream) (hs : lx._interp.script = []) :
    Lexer.innerStep lx s = (.inl .fuel, { lx with _type := Token.INVALID_TYPE }, s) := by
  simp [Lexer.innerStep, hs]

/-- Invariants of the inner resolution loop: the token start capture, the
factory source pair, the input reference, the marker count and the stream
contents are preserved; the script length never grows, and it strictly
shrinks whenever the loop actually settled (did not run out of fuel). -/
theorem innerLoop_inv (fuel : Nat) (lx : Lexer) (s : Stream) :
    (Lexer.innerLoop fuel lx s).2.1._tokenStartCharIndex = lx._tokenStartCharIndex ∧
    (Lexer.innerLoop fuel lx s).2.1._tokenStartLine = lx._tokenStartLine ∧
    (Lexer.innerLoop fuel lx s).2.1._tokenStartColumn = lx._tokenStartColumn ∧
    (Lexer.innerLoop fuel lx s).2.1._tokenFactorySourcePair = lx._tokenFactorySourcePair ∧
    (Lexer.innerLoop fuel lx s).2.1._input = lx._input ∧
    (Lexer.innerLoop fuel lx s).2.2.markCount = s.markCount ∧
    (Lexer.innerLoop fuel lx s).2.2.chars = s.chars ∧
    (Lexer.innerLoop fuel lx s).2.1._interp.script.length ≤ lx._interp.script.length ∧
    ((Lexer.innerLoop fuel lx s).1 ≠ .fuel →
      (Lexer.innerLoop fuel lx s).2.1._interp.script.length < lx._interp.script.length) := by
  induction fuel generalizing lx s with
  | zero => simp [Lexer.innerLoop]
  | succ fuel ih =>
    rcases hstep : Lexer.innerStep lx s with ⟨r | u, lx1, s1⟩
    · have hp := innerStep_pres lx s
      rw [hstep] at hp
      rcases hs : lx._interp.script with _ | ⟨step, rest⟩
      · have hemp := innerStep_empty lx s hs
        rw [hstep] at hemp
        simp only [Prod.mk.injEq, Sum.inl.injEq] at hemp
        obtain ⟨hr, hlx1, hs1⟩ := hemp
        subst hr; subst hlx1; subst hs1
        simp [Lexer.innerLoop, hstep, hs]
      · have hsc := innerStep_script lx s step rest hs
        rw [hstep] at hsc
        have hsc1 : lx1._interp.script = rest := hsc
        simp only [Lexer.innerLoop, hstep]
        refine ⟨hp.1, hp.2.1, hp.2.2.1, hp.2.2.2.1, hp.2.2.2.2.1, hp.2.2.2.2.2.1,
          hp.2.2.2.2.2.2, ?_, ?_⟩
        · rw [hsc1]
          simp only [List.length_cons]
          omega
        · intro _
          rw [hsc1]
          simp only [List.length_cons]
          omega
    · have hp := innerStep_pres lx s
      rw [hstep] at hp
      rcases hs : lx._interp.script with _ | ⟨step, rest⟩
      · have hemp := innerStep_empty lx s hs
        rw [hstep] at hemp
        simp at hemp
      · have hsc := innerStep_script lx s step rest hs
        rw [hstep] at hsc
        have hsc1 : lx1._interp.script = rest := hsc
        obtain ⟨i1, i2, i3, i4, i5, i6, i7, i8, i9⟩ := ih lx1 s1
        obtain ⟨p1, p2, p3, p4, p5, p6, p7⟩ := hp
        rw [hsc1] at i8
        simp only [Lexer.innerLoop, hstep]
        refine ⟨i1.trans p1, i2.trans p2, i3.trans p3, i4.trans p4, i5.trans p5,
          i6.trans p6, i7.trans p7, ?_, ?_⟩
        · simp only [List.length_cons]
          omega
        · intro _
          simp only [List.length_cons]
          omega

@[simp] theorem applyActs_noActs (lx : Lexer) : lx.applyActs noActs = lx := rfl

@[simp] theorem beginToken_interp (lx : Lexer) (s : Stream) :
    (lx.beginToken s)._interp = lx._interp := rfl

@[simp] theorem beginToken_hitEOF (lx : Lexer) (s : Stream) :
    (lx.beginToken s)._hitEOF = lx._hitEOF := rfl

@[simp] theorem beginToken_tsci (lx : Lexer) (s : Stream) :
    (lx.beginToken s)._tokenStartCharIndex = (s.index : Int) := rfl

@[simp] theorem beginToken_tsl (lx : Lexer) (s : Stream) :
    (lx.beginToken s)._tokenStartLine = lx._interp.line := rfl

@[simp] theorem beginToken_tsc (lx : Lexer) (s : Stream) :
    (lx.beginToken s)._tokenStartColumn = lx._interp.column := rfl

@[simp] theorem beginToken_token (lx : Lexer) (s : Stream) :
    (lx.beginToken s)._token = none := rfl

@[simp] theorem beginToken_channel (lx : Lexer) (s : Stream) :
    (lx.beginToken s)._channel = Token.DEFAULT_CHANNEL := rfl

@[simp] theorem beginToken_text (lx : Lexer) (s : Stream) :
    (lx.beginToken s)._text = none := rfl

@[simp] theorem beginToken_pair (lx : Lexer) (s : Stream) :
    (lx.beginToken s)._tokenFactorySourcePair = lx._tokenFactorySourcePair := rfl

/-- The inner iteration on a head step that resolves (type and actions),
written in terms of `innerPost`. -/
theorem innerStep_resolved (lx : Lexer) (s : Stream) (step : MatchStep)
    (rest : List MatchStep) (t : Int) (acts : LexActs)
    (hs : lx._interp.script = step :: rest)
    (ho : step.outcome = .resolved t acts) :
    Lexer.innerStep lx s =
      (brk (((lx.afterMatch step rest).applyActs acts).innerPost
          { s with pos := s.pos + step.consumed } t).1,
       (((lx.afterMatch step rest).applyActs acts).innerPost
          { s with pos := s.pos + step.consumed } t).2,
       { s with pos := s.pos + step.consumed }) := by
  simp only [Lexer.innerStep, hs, ho, Lexer.afterMatch]

/-- `innerPost` on a driver whose `_type` is still unset, with a concrete
resolved type (neither skip nor more): the type is adopted and the loop
breaks with a resolution. -/
theorem innerPost_invalid (lx : Lexer) (s : Stream) (t : Int)
    (hty : lx._type = Token.INVALID_TYPE) (ht1 : t ≠ Lexer.SKIP) (ht2 : t ≠ Lexer.MORE) :
    lx.innerPost s t =
      (some .resolved,
       { (if s.LA1 = Token.EOF then { lx with _hitEOF := true } else lx) with _type := t }) := by
  simp only [Lexer.innerPost]
  by_cases hla : s.LA1 = Token.EOF <;> simp [hla, hty, ht1, ht2]

/-- `innerPost` on a driver whose `_type` is still unset, with the more
sentinel resolved: the loop iterates again. -/
theorem innerPost_invalid_more (lx : Lexer) (s : Stream)
    (hty : lx._type = Token.INVALID_TYPE) :
    lx.innerPost s Lexer.MORE =
      (none,
       { (if s.LA1 = Token.EOF then { lx with _hitEOF := true } else lx) with
           _type := Lexer.MORE }) := by
  simp only [Lexer.innerPost]
  by_cases hla : s.LA1 = Token.EOF <;>
    simp [hla, hty, Lexer.SKIP, Lexer.MORE, Token.INVALID_TYPE]

/-- `innerPost` on a driver whose `_type` is still unset, with the skip
sentinel (as after a recovered recognition failure): the outer loop is
asked to retry. -/
theorem innerPost_invalid_skip (lx : Lexer) (s : Stream)
    (hty : lx._type = Token.INVALID_TYPE) :
    lx.innerPost s Lexer.SKIP =
      (some .continueOuter,
       { (if s.LA1 = Token.EOF then { lx with _hitEOF := true } else lx) with
           _type := Lexer.SKIP }) := by
  simp only [Lexer.innerPost]
  by_cases hla : s.LA1 = Token.EOF <;> simp [hla, hty]

/-- The inner iteration on a head step that raises a recognition failure:
notification, recovery, and the post-processing with the returned type
treated as the skip sentinel (source lines 116-127). -/
theorem innerStep_recFailure (lx : Lexer) (s : Stream) (step : MatchStep)
    (rest : List MatchStep) (nv : Bool)
    (hs : lx._interp.script = step :: rest)
    (ho : step.outcome = .recFailure nv) :
    Lexer.innerStep lx s =
      (brk ((((lx.afterMatch step rest).notifyListeners
            { s with pos := s.pos + step.consumed } nv).recover nv
            { s with pos := s.pos + step.consumed }).1.innerPost
          (((lx.afterMatch step rest).notifyListeners
            { s with pos := s.pos + step.consumed } nv).recover nv
            { s with pos := s.pos + step.consumed }).2 Lexer.SKIP).1,
       ((((lx.afterMatch step rest).notifyListeners
            { s with pos := s.pos + step.consumed } nv).recover nv
            { s with pos := s.pos + step.consumed }).1.innerPost
          (((lx.afterMatch step rest).notifyListeners
            { s with pos := s.pos + step.consumed } nv).recover nv
            { s with pos := s.pos + step.consumed }).2 Lexer.SKIP).2,
       (((lx.afterMatch step rest).notifyListeners
            { s with pos := s.pos + step.consumed } nv).recover nv
            { s with pos := s.pos + step.consumed }).2) := by
  simp only [Lexer.innerStep, hs, ho, Lexer.afterMatch]

/-- Unfolding one iteration of the inner loop. -/
theorem innerLoop_succ (fuel : Nat) (lx : Lexer) (s : Stream) :
    Lexer.innerLoop (fuel + 1) lx s =
      match Lexer.innerStep lx s with
      | (.inl r, lx1, s1) => (r, lx1, s1)
      | (.inr _, lx1, s1) => Lexer.innerLoop fuel lx1 s1 := rfl

/-- A run of zero or more rounds resolving the more sentinel followed by a
round resolving a concrete type: the inner loop ends with that type, the
stream advanced by everything the rounds consumed, and the in-progress
token fields (`_token`, `_text`, `_channel`) untouched by the rounds. -/
theorem innerLoop_more (step : MatchStep) (rest : List MatchStep) (t : Int)
    (ht1 : t ≠ Lexer.SKIP) (ht2 : t ≠ Lexer.MORE)
    (ho : step.outcome = .resolved t noActs) (moreSteps : List MatchStep) :
    ∀ (lx : Lexer) (s : Stream),
      lx._interp.script = moreSteps ++ step :: rest →
      (∀ m ∈ moreSteps, m.outcome = .resolved Lexer.MORE noActs) →
      (Lexer.innerLoop (lx._interp.script.length + 1) lx s).1 = .resolved ∧
      (Lexer.innerLoop (lx._interp.script.length + 1) lx s).2.2 =
        { s with pos := s.pos + ((moreSteps.map (fun m => m.consumed)).sum + step.consumed) } ∧
      (Lexer.innerLoop (lx._interp.script.length + 1) lx s).2.1._token = lx._token ∧
      (Lexer.innerLoop (lx._interp.script.length + 1) lx s).2.1._type = t ∧
      (Lexer.innerLoop (lx._interp.script.length + 1) lx s).2.1._text = lx._text ∧
      (Lexer.innerLoop (lx._interp.script.length + 1) lx s).2.1._channel = lx._channel := by
  induction moreSteps with
  | nil =>
    intro lx s hs hm
    simp only [List.nil_append] at hs
    have hstep := innerStep_resolved lx s step rest t noActs hs ho
    rw [applyActs_noActs, innerPost_invalid (lx.afterMatch step rest)
      { s with pos := s.pos + step.consumed } t rfl ht1 ht2] at hstep
    simp only [brk] at hstep
    rw [hs]
    simp only [List.length_cons]
    rw [innerLoop_succ, hstep]
    refine ⟨rfl, by simp, ?_, rfl, ?_, ?_⟩ <;>
      simp [apply_ite, Lexer.afterMatch]
  | cons m ms ih =>
    intro lx s hs hm
    have hmore : m.outcome = .resolved Lexer.MORE noActs := hm m (List.mem_cons_self m ms)
    have hs' : lx._interp.script = m :: (ms ++ step :: rest) := by simpa using hs
    have hstep := innerStep_resolved lx s m (ms ++ step :: rest) Lexer.MORE noActs hs' hmore
    rw [applyActs_noActs, innerPost_invalid_more (lx.afterMatch m (ms ++ step :: rest))
      { s with pos := s.pos + m.consumed } rfl] at hstep
    simp only [brk] at hstep
    have hB : (Lexer.innerStep lx s).2.1._interp.script = ms ++ step :: rest := by
      rw [hstep]
      simp [apply_ite, Lexer.afterMatch]
    rw [hstep] at hB
    obtain ⟨j1, j2, j3, j4, j5, j6⟩ :=
      ih (Lexer.innerStep lx s).2.1 (Lexer.innerStep lx s).2.2 (by rw [hstep]; exact hB)
        (fun m' hmem => hm m' (List.mem_cons_of_mem m hmem))
    rw [hstep] at j1 j2 j3 j4 j5 j6
    simp only at j1 j2 j3 j4 j5 j6
    rw [hB] at j1 j2 j3 j4 j5 j6
    rw [hs']
    simp only [List.length_cons]
    rw [innerLoop_succ, hstep]
    refine ⟨j1, ?_, ?_, j4, ?_, ?_⟩
    · rw [j2]
      simp [Stream.mk.injEq, List.map_cons, List.sum_cons]
      omega
    · rw [j3]
      simp [apply_ite, Lexer.afterMatch]
    · rw [j5]
      simp [apply_ite, Lexer.afterMatch]
    · rw [j6]
      simp [apply_ite, Lexer.afterMatch]

/-- When the inner loop resolves with no custom token pending, the outer
loop performs the default emission (source lines 145-148). -/
theorem outerLoop_resolved_emit (fuel : Nat) (lx : Lexer) (s : Stream)
    (lx2 : Lexer) (s2 : Stream)
    (heof : lx._hitEOF = false)
    (hinner : Lexer.innerLoop (lx._interp.script.length + 1) (lx.beginToken s) s =
      (.resolved, lx2, s2))
    (htok : lx2._token = none) :
    Lexer.outerLoop (fuel + 1) lx s = (.ok (lx2.emit s2).1, (lx2.emit s2).2, s2) := by
  simp only [Lexer.outerLoop, heof, beginToken_interp, hinner, htok, Bool.false_eq_true,
    if_false]

/-- The default emission spelled out: the emitted token spans
`[tokenStartCharIndex, currentStreamIndex - 1]` with the start line/column
captured at the start of the outer iteration. -/
theorem outerLoop_default_emit (fuel : Nat) (lx : Lexer) (s : Stream)
    (lx2 : Lexer) (s2 : Stream)
    (heof : lx._hitEOF = false)
    (hinner : Lexer.innerLoop (lx._interp.script.length + 1) (lx.beginToken s) s =
      (.resolved, lx2, s2))
    (htok : lx2._token = none) :
    Lexer.outerLoop (fuel + 1) lx s =
      (.ok (factoryCreate lx._tokenFactorySourcePair lx2._type lx2._text lx2._channel
          (s.index : Int) ((s2.index : Int) - 1) lx._interp.line lx._interp.column),
       lx2.emitToken (factoryCreate lx._tokenFactorySourcePair lx2._type lx2._text lx2._channel
          (s.index : Int) ((s2.index : Int) - 1) lx._interp.line lx._interp.column),
       s2) := by
  have hi := innerLoop_inv (lx._interp.script.length + 1) (lx.beginToken s) s
  rw [hinner] at hi
  have e1 : lx2._tokenStartCharIndex = (s.index : Int) := by
    have := hi.1
    simpa using this
  have e2 : lx2._tokenStartLine = lx._interp.line := by
    have := hi.2.1
    simpa using this
  have e3 : lx2._tokenStartColumn = lx._interp.column := by
    have := hi.2.2.1
    simpa using this
  have e4 : lx2._tokenFactorySourcePair = lx._tokenFactorySourcePair := by
    have := hi.2.2.2.1
    simpa using this
  rw [outerLoop_resolved_emit fuel lx s lx2 s2 heof hinner htok]
  simp [Lexer.emit, e1, e2, e3, e4]

/-- Claim C1: in a `nextToken` outer iteration whose inner loop resolves a
concrete type with no custom rule action having emitted a token
(`_token` still unset), the driver performs the default emission: the
factory builds a token spanning `[tokenStartCharIndex,
currentStreamIndex - 1]` with the start line/column captured at the start
of the outer iteration, the resolved type, the current channel and the
text override, and that token is recorded as the current token and
returned. -/
theorem nextToken_default_emission (fuel : Nat) (lx : Lexer) (s : Stream)
    (lx2 : Lexer) (s2 : Stream)
    (heof : lx._hitEOF = false)
    (hinner : Lexer.innerLoop (lx._interp.script.length + 1) (lx.beginToken s) s =
      (.resolved, lx2, s2))
    (htok : lx2._token = none) :
    Lexer.outerLoop (fuel + 1) lx s =
      (.ok (factoryCreate lx._tokenFactorySourcePair lx2._type lx2._text lx2._channel
          (s.index : Int) ((s2.index : Int) - 1) lx._interp.line lx._interp.column),
       lx2.emitToken (factoryCreate lx._tokenFactorySourcePair lx2._type lx2._text lx2._channel
          (s.index : Int) ((s2.index : Int) - 1) lx._interp.line lx._interp.column),
       s2) :=
  outerLoop_default_emit fuel lx s lx2 s2 heof hinner htok

/-- Claim C5: a recognition failure raised by the interpreter inside
`nextToken` notifies the error-listener dispatch exactly once (one event
appended), and then recovery makes exactly one step of forward progress
and never raises a further error (the iteration ends with an outer retry,
not a propagated failure): if the next lookahead character is the
end-of-input sentinel nothing is consumed; otherwise a no-viable-
alternative failure consumes exactly one character through the
interpreter's `consume` (line/column tracking preserved), and any other
recognition-failure kind consumes exactly one character directly from the
stream, leaving the interpreter's line/column untouched. -/
theorem recognition_failure_notify_and_recover (fuel : Nat) (lx : Lexer) (s : Stream)
    (step : MatchStep) (rest : List MatchStep) (nv : Bool)
    (hscript : lx._interp.script = step :: rest)
    (ho : step.outcome = .recFailure nv) :
    ((Lexer.innerLoop (fuel + 1) lx s).1 = .continueOuter ∧
     (Lexer.innerLoop (fuel + 1) lx s).2.1.errors = lx.errors ++
       [⟨none, lx._tokenStartLine, lx._tokenStartColumn,
         "token recognition error at: " ++ squote ++
           getErrorDisplay (Stream.getText { s with pos := s.pos + step.consumed }
             lx._tokenStartCharIndex
             ((({ s with pos := s.pos + step.consumed } : Stream)).index : Int)) ++ squote,
         nv⟩]) ∧
    (Stream.LA1 { s with pos := s.pos + step.consumed } = Token.EOF →
      (Lexer.innerLoop (fuel + 1) lx s).2.2.pos = s.pos + step.consumed ∧
      (Lexer.innerLoop (fuel + 1) lx s).2.1._interp.line = step.line ∧
      (Lexer.innerLoop (fuel + 1) lx s).2.1._interp.column = step.column) ∧
    (Stream.LA1 { s with pos := s.pos + step.consumed } ≠ Token.EOF →
      (Lexer.innerLoop (fuel + 1) lx s).2.2.pos = s.pos + step.consumed + 1 ∧
      (nv = true →
        (Lexer.innerLoop (fuel + 1) lx s).2.1._interp =
          (interpConsume ⟨step.line, step.column, rest⟩
            { s with pos := s.pos + step.consumed }).1) ∧
      (nv = false →
        (Lexer.innerLoop (fuel + 1) lx s).2.1._interp.line = step.line ∧
        (Lexer.innerLoop (fuel + 1) lx s).2.1._interp.column = step.column)) := by
  have hstep := innerStep_recFailure lx s step rest nv hscript ho
  rw [innerPost_invalid_skip
      (((lx.afterMatch step rest).notifyListeners { s with pos := s.pos + step.consumed }
        nv).recover nv { s with pos := s.pos + step.consumed }).1
      (((lx.afterMatch step rest).notifyListeners { s with pos := s.pos + step.consumed }
        nv).recover nv { s with pos := s.pos + step.consumed }).2
      (by simp [Lexer.afterMatch])] at hstep
  simp only [brk] at hstep
  simp only [Lexer.innerLoop, hstep]
  refine ⟨⟨trivial, ?_⟩, ?_, ?_⟩
  · simp [apply_ite, notifyListeners_errors, Lexer.afterMatch]
  · intro hla
    refine ⟨?_, ?_, ?_⟩ <;> simp [apply_ite, Lexer.recover, hla, Lexer.afterMatch]
  · intro hla
    refine ⟨?_, ?_, ?_⟩
    · simp [apply_ite, Lexer.recover, hla, Lexer.afterMatch]
    · intro hnv
      subst hnv
      simp [apply_ite, Lexer.recover, hla, Lexer.afterMatch]
    · intro hnv
      subst hnv
      constructor <;> simp [apply_ite, Lexer.recover, hla, Lexer.afterMatch]

/-- Witness for C5: a no-viable-alternative failure after one character of
"ab"; the next character is not end-of-input, so one character is consumed
through the interpreter. -/
theorem recognition_failure_notify_and_recover_w :
    ((Lexer.innerLoop (0 + 1) wLexC5 wStream0).1 = .continueOuter ∧
     (Lexer.innerLoop (0 + 1) wLexC5 wStream0).2.1.errors = wLexC5.errors ++
       [⟨none, wLexC5._tokenStartLine, wLexC5._tokenStartColumn,
         "token recognition error at: " ++ squote ++
           getErrorDisplay (Stream.getText
             { wStream0 with pos := wStream0.pos + wFailStep.consumed }
             wLexC5._tokenStartCharIndex
             ((({ wStream0 with pos := wStream0.pos + wFailStep.consumed } : Stream)).index :
               Int)) ++ squote,
         true⟩]) ∧
    (Stream.LA1 { wStream0 with pos := wStream0.pos + wFailStep.consumed } = Token.EOF →
      (Lexer.innerLoop (0 + 1) wLexC5 wStream0).2.2.pos =
        wStream0.pos + wFailStep.consumed ∧
      (Lexer.innerLoop (0 + 1) wLexC5 wStream0).2.1._interp.line = wFailStep.line ∧
      (Lexer.innerLoop (0 + 1) wLexC5 wStream0).2.1._interp.column = wFailStep.column) ∧
    (Stream.LA1 { wStream0 with pos := wStream0.pos + wFailStep.consumed } ≠ Token.EOF →
      (Lexer.innerLoop (0 + 1) wLexC5 wStream0).2.2.pos =
        wStream0.pos + wFailStep.consumed + 1 ∧
      (true = true →
        (Lexer.innerLoop (0 + 1) wLexC5 wStream0).2.1._interp =
          (interpConsume ⟨wFailStep.line, wFailStep.column, []⟩
            { wStream0 with pos := wStream0.pos + wFailStep.consumed }).1) ∧
      (true = false →
        (Lexer.innerLoop (0 + 1) wLexC5 wStream0).2.1._interp.line = wFailStep.line ∧
        (Lexer.innerLoop (0 + 1) wLexC5 wStream0).2.1._interp.column = wFailStep.column)) :=
  recognition_failure_notify_and_recover 0 wLexC5 wStream0 wFailStep [] true rfl rfl

/-- Claim C3: a sequence of one or more inner-loop rounds resolving the
more sentinel before a round resolves a concrete type yields exactly one
emitted token; its start position (and start line/column) is the capture
taken before the first round — the `tokenStart*` fields are not
re-captured inside the inner loop — and its end position is the stream
position after the final round minus one.  (Stated for any number of more
rounds, one or more included.) -/
theorem nextToken_more_preserves_start (fuel : Nat) (lx : Lexer) (s : Stream)
    (moreSteps : List MatchStep) (step : MatchStep) (rest : List MatchStep) (t : Int)
    (heof : lx._hitEOF = false)
    (hscript : lx._interp.script = moreSteps ++ step :: rest)
    (hm : ∀ m ∈ moreSteps, m.outcome = .resolved Lexer.MORE noActs)
    (ho : step.outcome = .resolved t noActs)
    (ht1 : t ≠ Lexer.SKIP) (ht2 : t ≠ Lexer.MORE) :
    ∃ lxf,
      Lexer.outerLoop (fuel + 1) lx s =
        (.ok (factoryCreate lx._tokenFactorySourcePair t none Token.DEFAULT_CHANNEL
            (s.index : Int)
            ((((s.pos + ((moreSteps.map (fun m => m.consumed)).sum + step.consumed)) : Nat) :
                Int) - 1)
            lx._interp.line lx._interp.column),
         lxf,
         { s with pos := s.pos + ((moreSteps.map (fun m => m.consumed)).sum + step.consumed) }) ∧
      lxf._token = some (factoryCreate lx._tokenFactorySourcePair t none Token.DEFAULT_CHANNEL
          (s.index : Int)
          ((((s.pos + ((moreSteps.map (fun m => m.consumed)).sum + step.consumed)) : Nat) :
              Int) - 1)
          lx._interp.line lx._interp.column) := by
  obtain ⟨j1, j2, j3, j4, j5, j6⟩ :=
    innerLoop_more step rest t ht1 ht2 ho moreSteps (lx.beginToken s) s
      (by simpa using hscript) hm
  have hfull : Lexer.innerLoop ((lx.beginToken s)._interp.script.length + 1)
      (lx.beginToken s) s =
      (.resolved,
       (Lexer.innerLoop ((lx.beginToken s)._interp.script.length + 1) (lx.beginToken s) s).2.1,
       { s with pos := s.pos + ((moreSteps.map (fun m => m.consumed)).sum + step.consumed) }) := by
    rw [← j1, ← j2]
  have htok : (Lexer.innerLoop ((lx.beginToken s)._interp.script.length + 1)
      (lx.beginToken s) s).2.1._token = none := by
    simpa using j3
  have hemit := outerLoop_default_emit fuel lx s _ _ heof hfull htok
  have e5 : (Lexer.innerLoop ((lx.beginToken s)._interp.script.length + 1)
      (lx.beginToken s) s).2.1._text = none := by
    simpa using j5
  have e6 : (Lexer.innerLoop ((lx.beginToken s)._interp.script.length + 1)
      (lx.beginToken s) s).2.1._channel = Token.DEFAULT_CHANNEL := by
    simpa using j6
  rw [j4, e5, e6] at hemit
  exact ⟨_, hemit, rfl⟩

/-- Witness for C3: two more rounds then a resolution over "abc" produce
one token spanning the whole input. -/
theorem nextToken_more_preserves_start_w :
    ∃ lxf,
      Lexer.outerLoop (0 + 1) wLexC3 wStreamABC =
        (.ok (factoryCreate wLexC3._tokenFactorySourcePair 7 none Token.DEFAULT_CHANNEL
            (wStreamABC.index : Int)
            ((((wStreamABC.pos + ((([wMore1, wMore2]).map (fun m => m.consumed)).sum +
                wRes7.consumed)) : Nat) : Int) - 1)
            wLexC3._interp.line wLexC3._interp.column),
         lxf,
         { wStreamABC with pos := wStreamABC.pos +
             ((([wMore1, wMore2]).map (fun m => m.consumed)).sum + wRes7.consumed) }) ∧
      lxf._token = some (factoryCreate wLexC3._tokenFactorySourcePair 7 none
          Token.DEFAULT_CHANNEL (wStreamABC.index : Int)
          ((((wStreamABC.pos + ((([wMore1, wMore2]).map (fun m => m.consumed)).sum +
              wRes7.consumed)) : Nat) : Int) - 1)
          wLexC3._interp.line wLexC3._interp.column) :=
  nextToken_more_preserves_start 0 wLexC3 wStreamABC [wMore1, wMore2] wRes7 [] 7
    rfl rfl (by decide) rfl (by decide) (by decide)

/-- Witness for C1 on a concrete two-character token. -/
theorem nextToken_default_emission_w :
    Lexer.outerLoop (0 + 1) wLex1 wStream0 =
      (.ok (factoryCreate wLex1._tokenFactorySourcePair wLex2._type wLex2._text wLex2._channel
          (wStream0.index : Int) ((wStream2.index : Int) - 1)
          wLex1._interp.line wLex1._interp.column),
       wLex2.emitToken (factoryCreate wLex1._tokenFactorySourcePair wLex2._type wLex2._text
          wLex2._channel (wStream0.index : Int) ((wStream2.index : Int) - 1)
          wLex1._interp.line wLex1._interp.column),
       wStream2) :=
  nextToken_default_emission 0 wLex1 wStream0 wLex2 wStream2 rfl (by decide) rfl

/-- A skip resolution makes the outer loop retry without emitting (source
lines 134-137 and 142-144). -/
theorem outerLoop_skip_step (fuel : Nat) (lx : Lexer) (s : Stream) (lx1 : Lexer) (s1 : Stream)
    (heof : lx._hitEOF = false)
    (hinner : Lexer.innerLoop (lx._interp.script.length + 1) (lx.beginToken s) s =
      (.continueOuter, lx1, s1)) :
    Lexer.outerLoop (fuel + 1) lx s = Lexer.outerLoop fuel lx1 s1 := by
  simp only [Lexer.outerLoop, heof, beginToken_interp, hinner, Bool.false_eq_true, if_false]

/-- Claim C2: a resolution that yields the skip sentinel emits no token
for that attempt — the outer loop simply restarts — and the next emitted
token's start position equals the stream position immediately after the
skipped span, because the start fields are re-captured from the current
stream index at the top of the next outer iteration. -/
theorem nextToken_skip_restarts (fuel : Nat) (lx : Lexer) (s : Stream)
    (lx1 : Lexer) (s1 : Stream) (lx2 : Lexer) (s2 : Stream)
    (heof : lx._hitEOF = false)
    (h1 : Lexer.innerLoop (lx._interp.script.length + 1) (lx.beginToken s) s =
      (.continueOuter, lx1, s1))
    (heof1 : lx1._hitEOF = false)
    (h2 : Lexer.innerLoop (lx1._interp.script.length + 1) (lx1.beginToken s1) s1 =
      (.resolved, lx2, s2))
    (htok : lx2._token = none) :
    Lexer.outerLoop (fuel + 1 + 1) lx s = Lexer.outerLoop (fuel + 1) lx1 s1 ∧
    (lx1.beginToken s1)._tokenStartCharIndex = (s1.index : Int) ∧
    Lexer.outerLoop (fuel + 1 + 1) lx s =
      (.ok (factoryCreate lx1._tokenFactorySourcePair lx2._type lx2._text lx2._channel
          (s1.index : Int) ((s2.index : Int) - 1) lx1._interp.line lx1._interp.column),
       lx2.emitToken (factoryCreate lx1._tokenFactorySourcePair lx2._type lx2._text lx2._channel
          (s1.index : Int) ((s2.index : Int) - 1) lx1._interp.line lx1._interp.column),
       s2) := by
  have hskip := outerLoop_skip_step (fuel + 1) lx s lx1 s1 heof h1
  refine ⟨hskip, rfl, ?_⟩
  rw [hskip]
  exact outerLoop_default_emit fuel lx1 s1 lx2 s2 heof1 h2 htok

/-- Witness for C2: skip one character of "ab", then tokenize the rest;
the emitted token starts right after the skipped span. -/
theorem nextToken_skip_restarts_w :
    Lexer.outerLoop (0 + 1 + 1) wLexC2 wStream0 = Lexer.outerLoop (0 + 1) wLexC2a wStreamC2a ∧
    (wLexC2a.beginToken wStreamC2a)._tokenStartCharIndex = (wStreamC2a.index : Int) ∧
    Lexer.outerLoop (0 + 1 + 1) wLexC2 wStream0 =
      (.ok (factoryCreate wLexC2a._tokenFactorySourcePair wLexC2b._type wLexC2b._text
          wLexC2b._channel (wStreamC2a.index : Int) ((wStream2.index : Int) - 1)
          wLexC2a._interp.line wLexC2a._interp.column),
       wLexC2b.emitToken (factoryCreate wLexC2a._tokenFactorySourcePair wLexC2b._type
          wLexC2b._text wLexC2b._channel (wStreamC2a.index : Int) ((wStream2.index : Int) - 1)
          wLexC2a._interp.line wLexC2a._interp.column),
       wStream2) :=
  nextToken_skip_restarts 0 wLexC2 wStream0 wLexC2a wStreamC2a wLexC2b wStream2
    rfl (by decide) rfl (by decide) rfl

/-- The outer loop never changes the marker count or the stream contents
(marking and releasing happen outside it, in `nextToken`). -/
theorem outerLoop_stream_pres (fuel : Nat) (lx : Lexer) (s : Stream) :
    (Lexer.outerLoop fuel lx s).2.2.markCount = s.markCount ∧
    (Lexer.outerLoop fuel lx s).2.2.chars = s.chars := by
  induction fuel generalizing lx s with
  | zero => simp [Lexer.outerLoop]
  | succ fuel ih =>
    by_cases he : lx._hitEOF = true
    · simp [Lexer.outerLoop, he]
    · simp only [Bool.not_eq_true] at he
      rcases hin : Lexer.innerLoop ((lx.beginToken s)._interp.script.length + 1)
        (lx.beginToken s) s with ⟨r, lx2, s2⟩
      have hi := innerLoop_inv ((lx.beginToken s)._interp.script.length + 1)
        (lx.beginToken s) s
      rw [hin] at hi
      have hm : s2.markCount = s.markCount := hi.2.2.2.2.2.1
      have hc : s2.chars = s.chars := hi.2.2.2.2.2.2.1
      cases r with
      | resolved =>
        rcases htk : lx2._token with _ | t
        · simp only [Lexer.outerLoop, he, hin, htk, Bool.false_eq_true, if_false]
          exact ⟨hm, hc⟩
        · simp only [Lexer.outerLoop, he, hin, htk, Bool.false_eq_true, if_false]
          exact ⟨hm, hc⟩
      | continueOuter =>
        simp only [Lexer.outerLoop, he, hin, Bool.false_eq_true, if_false]
        obtain ⟨m2, c2⟩ := ih lx2 s2
        exact ⟨m2.trans hm, c2.trans hc⟩
      | thrown c =>
        simp only [Lexer.outerLoop, he, hin, Bool.false_eq_true, if_false]
        exact ⟨hm, hc⟩
      | fuel =>
        simp only [Lexer.outerLoop, he, hin, Bool.false_eq_true, if_false]
        exact ⟨hm, hc⟩

/-- A non-recognition failure propagating out of the inner loop makes the
outer loop propagate it unchanged (source lines 123-126). -/
theorem outerLoop_thrown_err (fuel : Nat) (lx : Lexer) (s : Stream) (c : Nat)
    (lx1 : Lexer) (s1 : Stream)
    (heof : lx._hitEOF = false)
    (hinner : Lexer.innerLoop (lx._interp.script.length + 1) (lx.beginToken s) s =
      (.thrown c, lx1, s1)) :
    Lexer.outerLoop (fuel + 1) lx s = (.err c, lx1, s1) := by
  simp only [Lexer.outerLoop, heof, beginToken_interp, hinner, Bool.false_eq_true, if_false]

/-- A head step raising a non-recognition failure makes the inner loop
end with `thrown`, skipping notification, recovery and the end-of-input
check (the `throw e` inside the catch, source line 125). -/
theorem innerLoop_otherFailure (fuel : Nat) (lx : Lexer) (s : Stream) (step : MatchStep)
    (rest : List MatchStep) (c : Nat)
    (hs : lx._interp.script = step :: rest)
    (ho : step.outcome = .otherFailure c) :
    Lexer.innerLoop (fuel + 1) lx s =
      (.thrown c, lx.afterMatch step rest, { s with pos := s.pos + step.consumed }) := by
  simp only [Lexer.innerLoop, Lexer.innerStep, hs, ho, Lexer.afterMatch]

/-- Claim C6: a failure that is not a recognition failure propagates out
of `nextToken` unchanged (the call's result is exactly the loop's result,
never converted or swallowed, and a non-recognition failure raised by a
match travels `thrown` → `err` unmodified), and the stream marker acquired
at the top of the call is released on every exit path: whatever the
outcome, the resulting input has the same outstanding-marker count it
started with. -/
theorem nextToken_marker_released_and_propagates (lx : Lexer) (s : Stream)
    (hin : lx._input = some s) :
    (∃ s', (lx.nextToken).2._input = some s' ∧ s'.markCount = s.markCount ∧
      s'.chars = s.chars) ∧
    (lx.nextToken).1 = (Lexer.outerLoop (lx._interp.script.length + 1) lx s.mark).1 ∧
    (∀ (fuel : Nat) (lx0 : Lexer) (s0 : Stream) (step : MatchStep) (rest : List MatchStep)
        (c : Nat), lx0._interp.script = step :: rest → step.outcome = .otherFailure c →
      Lexer.innerLoop (fuel + 1) lx0 s0 =
        (.thrown c, lx0.afterMatch step rest, { s0 with pos := s0.pos + step.consumed })) ∧
    (∀ (fuel : Nat) (lx0 : Lexer) (s0 : Stream) (c : Nat) (lx1 : Lexer) (s1 : Stream),
      lx0._hitEOF = false →
      Lexer.innerLoop (lx0._interp.script.length + 1) (lx0.beginToken s0) s0 =
        (.thrown c, lx1, s1) →
      Lexer.outerLoop (fuel + 1) lx0 s0 = (.err c, lx1, s1)) := by
  refine ⟨?_, ?_, ?_, ?_⟩
  · obtain ⟨hm, hc⟩ := outerLoop_stream_pres (lx._interp.script.length + 1) lx s.mark
    refine ⟨(Lexer.outerLoop (lx._interp.script.length + 1) lx s.mark).2.2.release, ?_, ?_, ?_⟩
    · simp only [Lexer.nextToken, hin]
    · simp only [Stream.mark] at hm
      simp only [Stream.release, Stream.mark, hm]
      omega
    · simp only [Stream.mark] at hc
      simp only [Stream.release, Stream.mark, hc]
  · simp only [Lexer.nextToken, hin]
  · intro fuel lx0 s0 step rest c h1 h2
    exact innerLoop_otherFailure fuel lx0 s0 step rest c h1 h2
  · intro fuel lx0 s0 c lx1 s1 h1 h2
    exact outerLoop_thrown_err fuel lx0 s0 c lx1 s1 h1 h2

/-- Witness for C6 on a driver scripted for a non-recognition failure
with payload 42. -/
theorem nextToken_marker_released_and_propagates_w :
    (∃ s', (wLexC6.nextToken).2._input = some s' ∧ s'.markCount = wStream0.markCount ∧
      s'.chars = wStream0.chars) ∧
    (wLexC6.nextToken).1 =
      (Lexer.outerLoop (wLexC6._interp.script.length + 1) wLexC6 wStream0.mark).1 ∧
    (∀ (fuel : Nat) (lx0 : Lexer) (s0 : Stream) (step : MatchStep) (rest : List MatchStep)
        (c : Nat), lx0._interp.script = step :: rest → step.outcome = .otherFailure c →
      Lexer.innerLoop (fuel + 1) lx0 s0 =
        (.thrown c, lx0.afterMatch step rest, { s0 with pos := s0.pos + step.consumed })) ∧
    (∀ (fuel : Nat) (lx0 : Lexer) (s0 : Stream) (c : Nat) (lx1 : Lexer) (s1 : Stream),
      lx0._hitEOF = false →
      Lexer.innerLoop (lx0._interp.script.length + 1) (lx0.beginToken s0) s0 =
        (.thrown c, lx1, s1) →
      Lexer.outerLoop (fuel + 1) lx0 s0 = (.err c, lx1, s1)) :=
  nextToken_marker_released_and_propagates wLexC6 wStream0 rfl

/-- One `nextToken` call from a state whose EOF latch is set: the EOF
branch of the outer loop (source lines 103-106) emits a fresh end-of-input
token and the mark/release pair cancels, so the driver is unchanged except
for `_token`. -/
theorem nextToken_hitEOF_eq (lx : Lexer) (s : Stream)
    (hin : lx._input = some s) (heof : lx._hitEOF = true) :
    lx.nextToken = (.ok (lx.emitEOF s).1, { lx with _token := some (lx.emitEOF s).1 }) := by
  have hrel : s.mark.release = s := by
    simp [Stream.mark, Stream.release]
  simp only [Lexer.nextToken, hin]
  simp only [Lexer.outerLoop, heof, if_true]
  simp [hrel, heof, Lexer.emitEOF, Lexer.emitToken, Stream.index, Stream.mark, Stream.release,
    hin]

/-- Claim C4: once the EOF latch is set, every `nextToken` call returns
immediately with a freshly built end-of-input token of zero-length span
`[input.index, input.index - 1]` at the end-of-stream position, carrying
the interpreter's current line and column; the resulting state differs
only in `_token`, so repeated calls return such a token every time, each
referencing the same end-of-stream position. -/
theorem nextToken_after_hitEOF (lx : Lexer) (s : Stream)
    (hin : lx._input = some s) (heof : lx._hitEOF = true) :
    lx.nextToken =
      (.ok (factoryCreate lx._tokenFactorySourcePair Token.EOF none Token.DEFAULT_CHANNEL
          (s.index : Int) ((s.index : Int) - 1) lx._interp.line lx._interp.column),
       { lx with _token := some (factoryCreate lx._tokenFactorySourcePair Token.EOF none
          Token.DEFAULT_CHANNEL (s.index : Int) ((s.index : Int) - 1)
          lx._interp.line lx._interp.column) }) ∧
    ({ lx with _token := some (factoryCreate lx._tokenFactorySourcePair Token.EOF none
          Token.DEFAULT_CHANNEL (s.index : Int) ((s.index : Int) - 1)
          lx._interp.line lx._interp.column) } : Lexer).nextToken =
      (.ok (factoryCreate lx._tokenFactorySourcePair Token.EOF none Token.DEFAULT_CHANNEL
          (s.index : Int) ((s.index : Int) - 1) lx._interp.line lx._interp.column),
       { lx with _token := some (factoryCreate lx._tokenFactorySourcePair Token.EOF none
          Token.DEFAULT_CHANNEL (s.index : Int) ((s.index : Int) - 1)
          lx._interp.line lx._interp.column) }) := by
  constructor
  · exact nextToken_hitEOF_eq lx s hin heof
  · exact nextToken_hitEOF_eq _ s hin heof

/-- Witness for C4 at a concrete exhausted driver. -/
theorem nextToken_after_hitEOF_w :
    wLexEOF.nextToken =
      (.ok (factoryCreate wLexEOF._tokenFactorySourcePair Token.EOF none Token.DEFAULT_CHANNEL
          (wStreamEnd.index : Int) ((wStreamEnd.index : Int) - 1)
          wLexEOF._interp.line wLexEOF._interp.column),
       { wLexEOF with _token := some (factoryCreate wLexEOF._tokenFactorySourcePair Token.EOF none
          Token.DEFAULT_CHANNEL (wStreamEnd.index : Int) ((wStreamEnd.index : Int) - 1)
          wLexEOF._interp.line wLexEOF._interp.column) }) ∧
    ({ wLexEOF with _token := some (factoryCreate wLexEOF._tokenFactorySourcePair Token.EOF none
          Token.DEFAULT_CHANNEL (wStreamEnd.index : Int) ((wStreamEnd.index : Int) - 1)
          wLexEOF._interp.line wLexEOF._interp.column) } : Lexer).nextToken =
      (.ok (factoryCreate wLexEOF._tokenFactorySourcePair Token.EOF none Token.DEFAULT_CHANNEL
          (wStreamEnd.index : Int) ((wStreamEnd.index : Int) - 1)
          wLexEOF._interp.line wLexEOF._interp.column),
       { wLexEOF with _token := some (factoryCreate wLexEOF._tokenFactorySourcePair Token.EOF none
          Token.DEFAULT_CHANNEL (wStreamEnd.index : Int) ((wStreamEnd.index : Int) - 1)
          wLexEOF._interp.line wLexEOF._interp.column) }) :=
  nextToken_after_hitEOF wLexEOF wStreamEnd rfl rfl

/-- Claim C7: for every mode and every mode-stack nesting, `pushMode m`
followed immediately by `popMode` returns the mode active before the push
and restores the driver exactly (stack and current mode included). -/
theorem pushMode_then_popMode (lx : Lexer) (m : Int) :
    (lx.pushMode m).popMode = .ok (lx._mode, lx) := by
  simp [Lexer.pushMode, Lexer.popMode, Lexer.mode]

/-- Claim C8: `popMode` on an empty mode stack aborts with the
"Empty Stack" error instead of returning a mode. -/
theorem popMode_empty_stack_fatal (lx : Lexer) (h : lx._modeStack = []) :
    lx.popMode = .error "Empty Stack" := by
  simp [Lexer.popMode, h]

/-- Witness for C8 on a freshly constructed driver. -/
theorem popMode_empty_stack_fatal_w :
    (mkLexer wStreamEnd []).popMode = .error "Empty Stack" :=
  popMode_empty_stack_fatal (mkLexer wStreamEnd []) rfl

/-- Claim C10: the `inputStream` setter clears all scan state, the mode
stack and the EOF latch exactly as `reset()` does and points the
token-factory source pair at the new stream, but the `seek(0)` inside
`reset()` runs while `_input` is null and is skipped, so the new stream
keeps its current position (the result holds the new stream exactly as
supplied, not rewound to zero). -/
theorem setInputStream_skips_rewind (lx : Lexer) (ns : Stream) :
    lx.setInputStream ns =
      { _input := some ns
        _tokenFactorySourcePair := some ns
        _interp := lx._interp.reset
        _token := none
        _tokenStartCharIndex := -1
        _tokenStartLine := -1
        _tokenStartColumn := -1
        _hitEOF := false
        _channel := Token.DEFAULT_CHANNEL
        _type := Token.INVALID_TYPE
        _modeStack := []
        _mode := Lexer.DEFAULT_MODE
        _text := none
        errors := lx.errors } := by
  rfl

/-- A `nextToken` outcome that is an ordinary token (not the end-of-input
type) always consumed at least one scripted match: the script strictly
shrinks.  This is the termination measure for `getAllTokens`. -/
theorem outerLoop_ok_script_lt (fuel : Nat) :
    ∀ (lx : Lexer) (s : Stream) (t : Token) (lx1 : Lexer) (s1 : Stream),
      Lexer.outerLoop fuel lx s = (.ok t, lx1, s1) → t.type ≠ Token.EOF →
      lx1._interp.script.length < lx._interp.script.length := by
  induction fuel with
  | zero =>
    intro lx s t lx1 s1 h _
    simp [Lexer.outerLoop] at h
  | succ fuel ih =>
    intro lx s t lx1 s1 h ht
    by_cases he : lx._hitEOF = true
    · simp only [Lexer.outerLoop, he, if_true] at h
      simp only [Prod.mk.injEq, NTOut.ok.injEq] at h
      obtain ⟨h1, _, _⟩ := h
      exact absurd (by rw [← h1]; rfl) ht
    · simp only [Bool.not_eq_true] at he
      rcases hin : Lexer.innerLoop ((lx.beginToken s)._interp.script.length + 1)
        (lx.beginToken s) s with ⟨r, lx2, s2⟩
      have hi := innerLoop_inv ((lx.beginToken s)._interp.script.length + 1)
        (lx.beginToken s) s
      rw [hin] at hi
      cases r with
      | resolved =>
        have hlt : lx2._interp.script.length < lx._interp.script.length := by
          have := hi.2.2.2.2.2.2.2.2 (by simp)
          simpa using this
        rcases htk : lx2._token with _ | tk
        · simp only [Lexer.outerLoop, he, hin, htk, Bool.false_eq_true, if_false] at h
          simp only [Prod.mk.injEq, NTOut.ok.injEq] at h
          obtain ⟨_, h2, _⟩ := h
          have : lx1._interp = lx2._interp := by rw [← h2]; rfl
          rw [this]
          exact hlt
        · simp only [Lexer.outerLoop, he, hin, htk, Bool.false_eq_true, if_false] at h
          simp only [Prod.mk.injEq, NTOut.ok.injEq] at h
          obtain ⟨_, h2, _⟩ := h
          rw [← h2]
          exact hlt
      | continueOuter =>
        have hlt : lx2._interp.script.length < lx._interp.script.length := by
          have := hi.2.2.2.2.2.2.2.2 (by simp)
          simpa using this
        simp only [Lexer.outerLoop, he, hin, Bool.false_eq_true, if_false] at h
        exact (ih lx2 s2 t lx1 s1 h ht).trans hlt
      | thrown c =>
        simp only [Lexer.outerLoop, he, hin, Bool.false_eq_true, if_false] at h
        simp at h
      | fuel =>
        simp only [Lexer.outerLoop, he, hin, Bool.false_eq_true, if_false] at h
        simp at h

/-- The `nextToken`-level version of the script decrease measure. -/
theorem nextToken_ok_script_lt (lx : Lexer) (t : Token) (lx1 : Lexer)
    (h : lx.nextToken = (.ok t, lx1)) (ht : t.type ≠ Token.EOF) :
    lx1._interp.script.length < lx._interp.script.length := by
  rcases hi : lx._input with _ | s
  · simp only [Lexer.nextToken, hi] at h
    simp at h
  · simp only [Lexer.nextToken, hi] at h
    simp only [Prod.mk.injEq] at h
    obtain ⟨h1, h2⟩ := h
    have heta : Lexer.outerLoop (lx._interp.script.length + 1) lx s.mark =
        (.ok t,
         (Lexer.outerLoop (lx._interp.script.length + 1) lx s.mark).2.1,
         (Lexer.outerLoop (lx._interp.script.length + 1) lx s.mark).2.2) := by
      rw [← h1]
    have hlt := outerLoop_ok_script_lt (lx._interp.script.length + 1) lx s.mark t
      (Lexer.outerLoop (lx._interp.script.length + 1) lx s.mark).2.1
      (Lexer.outerLoop (lx._interp.script.length + 1) lx s.mark).2.2 heta ht
    have : lx1._interp =
        (Lexer.outerLoop (lx._interp.script.length + 1) lx s.mark).2.1._interp := by
      rw [← h2]
    rw [this]
    exact hlt

/-- `gaLoop` successes are exactly traces of `nextToken` calls up to (and
excluding) the first end-of-input token. -/
theorem gaLoop_ok (fuel : Nat) :
    ∀ (lx : Lexer) (ts : List Token) (lx1 : Lexer),
      Lexer.gaLoop fuel lx = .ok (ts, lx1) →
      (∀ t ∈ ts, t.type ≠ Token.EOF) ∧ NextTokenTrace lx ts lx1 := by
  induction fuel with
  | zero =>
    intro lx ts lx1 h
    simp [Lexer.gaLoop] at h
  | succ fuel ih =>
    intro lx ts lx1 h
    rcases hn : lx.nextToken with ⟨out, lxA⟩
    cases out with
    | ok t =>
      by_cases ht : t.type = Token.EOF
      · simp only [Lexer.gaLoop, hn, ht, if_pos, Except.ok.injEq, Prod.mk.injEq] at h
        obtain ⟨hts, hlx⟩ := h
        rw [← hts, ← hlx]
        exact ⟨by simp, NextTokenTrace.eof lx lxA t hn ht⟩
      · rcases hg : Lexer.gaLoop fuel lxA with e | ⟨ts0, lxB⟩
        · simp only [Lexer.gaLoop, hn, hg] at h
          rw [if_neg ht] at h
          simp at h
        · simp only [Lexer.gaLoop, hn, hg] at h
          rw [if_neg ht] at h
          simp only [Except.ok.injEq, Prod.mk.injEq] at h
          obtain ⟨hts, hlx⟩ := h
          rw [← hts, ← hlx]
          obtain ⟨hall, htr⟩ := ih lxA ts0 lxB hg
          refine ⟨?_, NextTokenTrace.step lx lxA lxB t ts0 hn ht htr⟩
          intro x hx
          rcases List.mem_cons.mp hx with hx | hx
          · rw [hx]; exact ht
          · exact hall x hx
    | err c =>
      simp [Lexer.gaLoop, hn] at h
    | noStream =>
      simp [Lexer.gaLoop, hn] at h
    | outOfFuel =>
      simp [Lexer.gaLoop, hn] at h

/-- A `nextToken` trace guarantees that `gaLoop` succeeds with exactly the
traced tokens, for any fuel above the script length. -/
theorem trace_gaLoop (lx : Lexer) (ts : List Token) (lx1 : Lexer)
    (h : NextTokenTrace lx ts lx1) :
    ∀ fuel : Nat, lx._interp.script.length < fuel →
      Lexer.gaLoop fuel lx = .ok (ts, lx1) := by
  induction h with
  | eof lx lx1 t hn ht =>
    intro fuel hf
    obtain ⟨f, rfl⟩ : ∃ f, fuel = f + 1 := ⟨fuel - 1, by omega⟩
    simp [Lexer.gaLoop, hn, ht]
  | step lx lxA lxB t ts0 hn ht htr ih =>
    intro fuel hf
    obtain ⟨f, rfl⟩ : ∃ f, fuel = f + 1 := ⟨fuel - 1, by omega⟩
    have hlt := nextToken_ok_script_lt lx t lxA hn ht
    have hrec := ih f (by omega)
    simp [Lexer.gaLoop, hn, ht, hrec]

/-- Claim C9: `getAllTokens` terminates — a success is reached exactly
when repeated `nextToken` calls eventually produce an end-of-input token,
with fuel bounded by the interpreter script — and the sequence it returns
contains every token produced by repeated `nextToken` calls up to but
excluding the first end-of-input token; an end-of-input token is never
included in the result. -/
theorem getAllTokens_terminates_no_eof (lx : Lexer) (ts : List Token) (lx1 : Lexer) :
    (lx.getAllTokens = .ok (ts, lx1) →
      (∀ t ∈ ts, t.type ≠ Token.EOF) ∧ NextTokenTrace lx ts lx1) ∧
    (NextTokenTrace lx ts lx1 → lx.getAllTokens = .ok (ts, lx1)) := by
  constructor
  · intro h
    exact gaLoop_ok (lx._interp.script.length + 1) lx ts lx1 h
  · intro h
    exact trace_gaLoop lx ts lx1 h (lx._interp.script.length + 1) (by omega)

/-- Witness for C9: draining "ab" with one scripted token yields exactly
that token and never the end-of-input token. -/
theorem getAllTokens_terminates_no_eof_w :
    (∀ t ∈ [wC9tok], t.type ≠ Token.EOF) ∧ NextTokenTrace wLex1 [wC9tok] wC9lxF :=
  (getAllTokens_terminates_no_eof wLex1 [wC9tok] wC9lxF).1 rfl

end Theorems

end Antlr4Lexer
